import Mathlib

/-!
Verification development for `media-stream-download.js`.

The script defines two classes: `VideoDownloader`, which discovers every
`<video>` element on the page and fans `start()` / `stop()` out to one
`VideoDownloadWorker` per element, and `VideoDownloadWorker`, which owns
one video element, one `MediaRecorder`, and an array `#recordedChunks`
of delivered data chunks, emitting one downloaded file when the recorder
stops.

The embedding below is a shallow one: each JS method becomes a Lean
function on an explicit `Worker` state record.  JavaScript is
single-threaded and every handler in the script runs to completion, so a
method call or an event-handler invocation is one atomic state
transformation.  A thrown exception is modelled by the `Option Unit`
component of a result pair: `some ()` means the call threw and the
exception propagated to the caller; because every throwing path in the
script throws before any field assignment, the state component of such a
result is the unchanged input state.  `console.log` calls change no
program state and are not modelled.
-/

/-- A byte sequence carried by a `dataavailable` event (`event.data`);
`size` in the script is the length of this sequence. -/
abbrev ChunkData := List Nat

/-- The `MediaRecorder` state values used by the script:
`"inactive"`, `"recording"`, `"paused"`. -/
inductive RecState where
  | inactive
  | recording
  | paused
deriving DecidableEq, Repr

/-- One `MediaRecorder` instance.  `id` identifies the instance so that
replacing a recorder by a freshly constructed one is observable. -/
structure MediaRecorder where
  id : Nat
  state : RecState
deriving DecidableEq, Repr

/-- The `options` object passed to the `MediaRecorder` constructor;
the script only ever sets its `mimeType` field. -/
structure RecorderOptions where
  mimeType : String
deriving DecidableEq, Repr

/-- The slice of an `HTMLVideoElement` the worker reads: the
monkey-patched `playing` getter, and whether `captureStream` /
`new MediaRecorder` succeed on it (`capturable = false` models a
source that throws on capture, e.g. a protected stream). -/
structure Video where
  playing : Bool
  capturable : Bool
deriving DecidableEq, Repr

/-- One file handed to the download anchor: the blob's bytes, the blob's
`type` tag, and the `download` filename set on the anchor. -/
structure Artifact where
  data : ChunkData
  type : String
  filename : String
deriving DecidableEq, Repr

/-- The mutable state of one `VideoDownloadWorker`: its private fields
(`#video`, `#filename`, `#mimeType`, `#options`, `#fps`,
`#mediaRecorder`, `#recordedChunks`), plus `nextId`, the allocator for
`MediaRecorder.id`, and `artifacts`, the list of files the worker has
downloaded so far (the observable effect of `#downloadVideo`). -/
structure Worker where
  video : Video
  filename : String
  mimeType : String
  options : RecorderOptions
  fps : Nat
  mediaRecorder : Option MediaRecorder
  recordedChunks : List ChunkData
  nextId : Nat
  artifacts : List Artifact
deriving DecidableEq, Repr

namespace VideoDownloadWorker

/-- The constructor
`constructor(video, filename = this.#filename, mimeType = this.#mimeType, options = this.#options)`.
Its body assigns only `#video = video`, `#filename = filename` and
`#options = options`; the `mimeType` parameter is accepted but never
stored, so `#mimeType` keeps its field initializer `"video/webm"`. -/
def mk (video : Video) (filename : String) (mimeTypeArg : String)
    (options : RecorderOptions) : Worker :=
  { video := video
    filename := filename
    mimeType := "video/webm"
    options := options
    fps := 0
    mediaRecorder := none
    recordedChunks := []
    nextId := 0
    artifacts := [] }

/-- The constructor called with only the required `video` argument: the
defaults are the field initializers `#filename = "cast.webm"`,
`#mimeType = "video/webm"`,
`#options = \x7b mimeType: "video/webm; codecs=vp9" \x7d`. -/
def mkDefault (video : Video) : Worker :=
  mk video "cast.webm" "video/webm" { mimeType := "video/webm; codecs=vp9" }

/-- `#newMediaRecorder`: `this.#video.captureStream(this.#fps)` followed by
`new MediaRecorder(stream, this.#options)`.  On a non-capturable source
one of the two throws (`none`); otherwise the freshly constructed
recorder (state `"inactive"`, fresh `id`) and the bumped allocator are
returned. -/
def newMediaRecorder (w : Worker) : Option (MediaRecorder × Nat) :=
  if w.video.capturable then
    some ({ id := w.nextId, state := RecState.inactive }, w.nextId + 1)
  else
    none

/-- The first branch of `start()`: assign
`this.#mediaRecorder = this.#newMediaRecorder()` and, if
`this.#video.playing`, call `this.#mediaRecorder.start()`.  When
`#newMediaRecorder` throws, the assignment never happens and the
exception propagates with the worker unchanged. -/
def startFresh (w : Worker) : Worker × Option Unit :=
  match newMediaRecorder w with
  | none => (w, some ())
  | some (mr, nid) =>
    if w.video.playing then
      ({ w with mediaRecorder := some { mr with state := RecState.recording }
                nextId := nid }, none)
    else
      ({ w with mediaRecorder := some mr, nextId := nid }, none)

/-- `start()`: if there is no recorder or it is `"inactive"`, build and
maybe start a fresh one; else if `"paused"`, `resume()` it; else (already
`"recording"`) only log. -/
def start (w : Worker) : Worker × Option Unit :=
  match w.mediaRecorder with
  | none => startFresh w
  | some mr =>
    match mr.state with
    | RecState.inactive => startFresh w
    | RecState.paused =>
        ({ w with mediaRecorder := some { mr with state := RecState.recording } }, none)
    | RecState.recording => (w, none)

/-- `stop()`: if a recorder exists and its state is not `"inactive"`,
call `mediaRecorder.stop()`, which synchronously sets the recorder state
to `"inactive"`; the final `dataavailable` flush and the `onstop`
callback arrive later as separate events.  Otherwise a no-op. -/
def stop (w : Worker) : Worker :=
  match w.mediaRecorder with
  | none => w
  | some mr =>
    if mr.state ≠ RecState.inactive then
      { w with mediaRecorder := some { mr with state := RecState.inactive } }
    else
      w

/-- `pause()`: if a recorder exists and its state is `"recording"`,
call `mediaRecorder.pause()`; otherwise a no-op. -/
def pause (w : Worker) : Worker :=
  match w.mediaRecorder with
  | none => w
  | some mr =>
    if mr.state = RecState.recording then
      { w with mediaRecorder := some { mr with state := RecState.paused } }
    else
      w

/-- `#onDataAvailable`: `if (event.data.size > 0)` push the chunk onto
`#recordedChunks`; a zero-byte chunk is discarded. -/
def onDataAvailable (w : Worker) (d : ChunkData) : Worker :=
  if 0 < d.length then
    { w with recordedChunks := w.recordedChunks ++ [d] }
  else
    w

/-- `#downloadVideo` (the recorder's `onstop` callback): build a `Blob`
from `#recordedChunks` tagged `this.#mimeType` (a blob of several parts
is their byte concatenation), download it under `this.#filename` via the
anchor click, then set `#mediaRecorder = undefined` and
`#recordedChunks = []`. -/
def downloadVideo (w : Worker) : Worker :=
  { w with
      artifacts := w.artifacts ++
        [{ data := w.recordedChunks.flatten
           type := w.mimeType
           filename := w.filename }]
      mediaRecorder := none
      recordedChunks := [] }

/-- `#onPlayingEvent`: `if (this.#mediaRecorder) \x7b this.start(); \x7d`
then a log call. -/
def onPlayingEvent (w : Worker) : Worker × Option Unit :=
  if w.mediaRecorder.isSome then start w else (w, none)

/-- `#onStalledEvent`: `this.pause()` then a log call. -/
def onStalledEvent (w : Worker) : Worker :=
  pause w

/-- `#onPauseEvent`: `this.pause()` then a log call. -/
def onPauseEvent (w : Worker) : Worker :=
  pause w

/-- `#onEndedEvent`: `this.stop()` then a log call. -/
def onEndedEvent (w : Worker) : Worker :=
  stop w

end VideoDownloadWorker

namespace VideoDownloader

/-- The constructor: one `VideoDownloadWorker` per discovered video, in
document order, each built with only the `video` argument. -/
def mk (videos : List Video) : List Worker :=
  videos.map VideoDownloadWorker.mkDefault

/-- `start = () => \x7b for (const worker of this.#workers) worker.start(); \x7d`.
There is no `try`/`catch`: if a worker's `start()` throws, the loop
aborts, the workers after it are left untouched, and the exception
escapes (`some ()`). -/
def start : List Worker → List Worker × Option Unit
  | [] => ([], none)
  | w :: ws =>
    match VideoDownloadWorker.start w with
    | (w', none) =>
        let r := start ws
        (w' :: r.1, r.2)
    | (w', some e) => (w' :: ws, some e)

/-- `stop = () => \x7b for (const worker of this.#workers) worker.stop(); \x7d`.
`VideoDownloadWorker.stop` never throws, so every worker is signalled. -/
def stop : List Worker → List Worker
  | [] => []
  | w :: ws => VideoDownloadWorker.stop w :: stop ws

end VideoDownloader

/-! ## Concrete workers used by witnesses and counterexamples -/

/-- A capturable source that is currently playing. -/
def vPlay : Video := { playing := true, capturable := true }

/-- A capturable source that never becomes playback-ready. -/
def vNotReady : Video := { playing := false, capturable := true }

/-- A source on which capture initialization throws. -/
def vBad : Video := { playing := true, capturable := false }

/-- A freshly constructed worker on a playing source (Idle). -/
def wIdle : Worker := VideoDownloadWorker.mkDefault vPlay

/-- A worker whose recorder is actively recording. -/
def wRecording : Worker :=
  { wIdle with mediaRecorder := some { id := 0, state := RecState.recording }
               nextId := 1 }

/-- A worker in the Armed state: recorder instantiated by `start()` but
never started (source was not playing at `start()` time). -/
def wArmed : Worker :=
  { (VideoDownloadWorker.mkDefault vNotReady) with
      mediaRecorder := some { id := 0, state := RecState.inactive }
      nextId := 1 }

/-- A freshly constructed worker on a non-capturable source (Idle). -/
def wBad : Worker := VideoDownloadWorker.mkDefault vBad

/-! ## Helper lemmas -/

/-- Folding chunk deliveries over a worker only grows `recordedChunks`,
by exactly the chunks of positive size, in arrival order. -/
theorem foldl_onDataAvailable (ds : List ChunkData) (w : Worker) :
    ds.foldl VideoDownloadWorker.onDataAvailable w =
      { w with recordedChunks :=
          w.recordedChunks ++ ds.filter fun d => 0 < d.length } := by
  induction ds generalizing w with
  | nil => simp
  | cons d ds ih =>
      simp only [List.foldl_cons, List.filter_cons]
      rw [ih]
      unfold VideoDownloadWorker.onDataAvailable
      by_cases h : 0 < d.length
      · simp [h]
      · simp [h]

/-- A `start()` call that throws leaves the worker unchanged. -/
theorem start_error_unchanged (w : Worker)
    (h : (VideoDownloadWorker.start w).2 = some ()) :
    (VideoDownloadWorker.start w).1 = w := by
  unfold VideoDownloadWorker.start VideoDownloadWorker.startFresh at *
  cases hmr : w.mediaRecorder with
  | none =>
      simp [hmr] at h ⊢
      cases hn : VideoDownloadWorker.newMediaRecorder w with
      | none => simp [hn]
      | some p =>
          simp [hn] at h
          by_cases hp : w.video.playing <;> simp [hp] at h
  | some mr =>
      cases hst : mr.state <;> simp [hmr, hst] at h ⊢
      cases hn : VideoDownloadWorker.newMediaRecorder w with
      | none => simp [hn]
      | some p =>
          simp [hn] at h
          by_cases hp : w.video.playing <;> simp [hp] at h

/-! ## Claim theorems -/

/-- Claim C6: `start()` is idempotent while Recording — with an actively
recording encoder, a second `start()` returns the worker completely
unchanged (same single recorder instance, no fresh instantiation, no
allocator bump, `recordedChunks` untouched) and throws nothing. -/
theorem C6_start_idempotent_while_recording (w : Worker) (mr : MediaRecorder)
    (h1 : w.mediaRecorder = some mr) (h2 : mr.state = RecState.recording) :
    VideoDownloadWorker.start w = (w, none) := by
  simp [VideoDownloadWorker.start, h1, h2]

theorem C6_start_idempotent_while_recording_witness :
    VideoDownloadWorker.start wRecording = (wRecording, none) :=
  C6_start_idempotent_while_recording wRecording
    { id := 0, state := RecState.recording } rfl rfl

/-- Claim C7: the chunk handler appends the delivered chunk to
`recordedChunks` exactly when its size is positive, leaves the buffer
as-is exactly when the chunk is zero-byte, and never touches the
already-materialized artifacts. -/
theorem C7_zero_byte_chunks_discarded (w : Worker) (d : ChunkData) :
    ((VideoDownloadWorker.onDataAvailable w d).recordedChunks
        = w.recordedChunks ++ [d] ↔ 0 < d.length) ∧
    ((VideoDownloadWorker.onDataAvailable w d).recordedChunks
        = w.recordedChunks ↔ d.length = 0) ∧
    (VideoDownloadWorker.onDataAvailable w d).artifacts = w.artifacts := by
  unfold VideoDownloadWorker.onDataAvailable
  by_cases h : 0 < d.length
  · simp [h]
    exact List.length_pos.mp h
  · simp [h]
    exact List.length_eq_zero.mp (Nat.eq_zero_of_not_pos h)

/-- Claim C9: materialization is atomic with respect to chunk delivery —
`downloadVideo` resets the buffer, and however many chunks arrive after
materialization, the emitted artifact list (including the just-flushed
artifact) is never altered; the late chunks accumulate in the fresh
buffer of the next session cycle instead. -/
theorem C9_materialization_atomic (w : Worker) (ds : List ChunkData) :
    (VideoDownloadWorker.downloadVideo w).recordedChunks = [] ∧
    (ds.foldl VideoDownloadWorker.onDataAvailable
        (VideoDownloadWorker.downloadVideo w)).artifacts
      = (VideoDownloadWorker.downloadVideo w).artifacts ∧
    (ds.foldl VideoDownloadWorker.onDataAvailable
        (VideoDownloadWorker.downloadVideo w)).recordedChunks
      = ds.filter fun d => 0 < d.length := by
  rw [foldl_onDataAvailable]
  simp [VideoDownloadWorker.downloadVideo]

/-- Claim C10: a `playing` event received while the worker holds no
encoder instance is a no-op — no encoder is instantiated, no recording
begins, the worker state is unchanged and nothing is thrown. -/
theorem C10_playing_without_encoder_is_noop (w : Worker)
    (h : w.mediaRecorder = none) :
    VideoDownloadWorker.onPlayingEvent w = (w, none) := by
  simp [VideoDownloadWorker.onPlayingEvent, h]

theorem C10_playing_without_encoder_is_noop_witness :
    VideoDownloadWorker.onPlayingEvent wIdle = (wIdle, none) :=
  C10_playing_without_encoder_is_noop wIdle rfl

/-- Claim C5: round-trip — starting a worker on a playing, capturable
source, delivering any nonempty sequence of non-empty chunks, then
stopping and receiving the recorder's completion callback yields exactly
one materialized artifact whose bytes are the concatenation of the
chunks in arrival order, and `recordedChunks` is empty immediately
after materialization. -/
theorem C5_round_trip (video : Video) (filename mimeTypeArg : String)
    (options : RecorderOptions) (chunks : List ChunkData)
    (hplay : video.playing = true) (hcap : video.capturable = true)
    (hne : chunks ≠ []) (hall : ∀ c ∈ chunks, c ≠ []) :
    (VideoDownloadWorker.downloadVideo
      (VideoDownloadWorker.stop
        (chunks.foldl VideoDownloadWorker.onDataAvailable
          (VideoDownloadWorker.start
            (VideoDownloadWorker.mk video filename mimeTypeArg options)).1))).artifacts
      = [{ data := chunks.flatten, type := "video/webm", filename := filename }] ∧
    (VideoDownloadWorker.downloadVideo
      (VideoDownloadWorker.stop
        (chunks.foldl VideoDownloadWorker.onDataAvailable
          (VideoDownloadWorker.start
            (VideoDownloadWorker.mk video filename mimeTypeArg options)).1))).recordedChunks
      = [] := by
  have hfil : chunks.filter (fun d => 0 < d.length) = chunks := by
    rw [List.filter_eq_self]
    intro c hc
    simpa [List.length_pos] using hall c hc
  simp [VideoDownloadWorker.mk, VideoDownloadWorker.start,
        VideoDownloadWorker.startFresh, VideoDownloadWorker.newMediaRecorder,
        hplay, hcap, foldl_onDataAvailable, hfil,
        VideoDownloadWorker.stop, VideoDownloadWorker.downloadVideo]

theorem C5_round_trip_witness :
    (VideoDownloadWorker.downloadVideo
      (VideoDownloadWorker.stop
        (([[1], [2, 3]] : List ChunkData).foldl VideoDownloadWorker.onDataAvailable
          (VideoDownloadWorker.start
            (VideoDownloadWorker.mk vPlay "a.webm" "video/webm"
              { mimeType := "video/webm; codecs=vp9" })).1))).artifacts
      = [{ data := [1, 2, 3], type := "video/webm", filename := "a.webm" }] ∧
    (VideoDownloadWorker.downloadVideo
      (VideoDownloadWorker.stop
        (([[1], [2, 3]] : List ChunkData).foldl VideoDownloadWorker.onDataAvailable
          (VideoDownloadWorker.start
            (VideoDownloadWorker.mk vPlay "a.webm" "video/webm"
              { mimeType := "video/webm; codecs=vp9" })).1))).recordedChunks
      = [] :=
  C5_round_trip vPlay "a.webm" "video/webm"
    { mimeType := "video/webm; codecs=vp9" } [[1], [2, 3]]
    rfl rfl (by decide) (by decide)

/-- Claim C8 counterexample: on a non-capturable source, `start()` does
not surface the encoder-open failure as a non-fatal result: the
exception escapes to the caller (`some ()`), and the script has no
`catch` or log on this path. -/
theorem C8_counterexample :
    (VideoDownloadWorker.start wBad).2 = some () ∧
    (VideoDownloadWorker.start wBad).2 ≠ none := by
  constructor
  · rfl
  · decide

/-- Claim C8 amended: when encoder instantiation fails during `start()`
from Idle, the session is left exactly as it was — still Idle, no
encoder reference retained — and no automatic retry is made, but the
failure propagates to the caller as a thrown exception rather than
being caught, logged, and returned as a non-fatal result. -/
theorem C8_open_failure_throws (w : Worker)
    (hmr : w.mediaRecorder = none) (hcap : w.video.capturable = false) :
    VideoDownloadWorker.start w = (w, some ()) := by
  simp [VideoDownloadWorker.start, VideoDownloadWorker.startFresh,
        VideoDownloadWorker.newMediaRecorder, hmr, hcap]

theorem C8_open_failure_throws_witness :
    VideoDownloadWorker.start wBad = (wBad, some ()) :=
  C8_open_failure_throws wBad rfl rfl

/-- Claim C3 counterexample: after `start()` on a source that never
becomes playback-ready the worker is Armed (recorder id 0, inactive);
the subsequent `stop()` does not transition it to Idle: the encoder
reference is still retained, because `stop()` only acts when the
recorder state differs from `"inactive"`. -/
theorem C3_counterexample :
    (VideoDownloadWorker.stop
        (VideoDownloadWorker.start
          (VideoDownloadWorker.mkDefault vNotReady)).1).mediaRecorder
      = some { id := 0, state := RecState.inactive } ∧
    (VideoDownloadWorker.stop
        (VideoDownloadWorker.start
          (VideoDownloadWorker.mkDefault vNotReady)).1).mediaRecorder
      ≠ none := by
  constructor
  · rfl
  · decide

/-- Claim C3 amended: for a source that never becomes playback-ready,
`start()` leaves the worker Armed (inactive recorder instantiated, zero
chunks accumulated, nothing thrown); a subsequent `stop()` is a no-op —
the worker remains Armed with the encoder reference retained — and no
artifact is emitted and the download collaborator is never invoked. -/
theorem C3_never_ready_start_stop (w : Worker)
    (hmr : w.mediaRecorder = none) (hbuf : w.recordedChunks = [])
    (hart : w.artifacts = []) (hplay : w.video.playing = false)
    (hcap : w.video.capturable = true) :
    (VideoDownloadWorker.start w).2 = none ∧
    ((VideoDownloadWorker.start w).1).mediaRecorder
        = some { id := w.nextId, state := RecState.inactive } ∧
    ((VideoDownloadWorker.start w).1).recordedChunks = [] ∧
    VideoDownloadWorker.stop (VideoDownloadWorker.start w).1
        = (VideoDownloadWorker.start w).1 ∧
    (VideoDownloadWorker.stop (VideoDownloadWorker.start w).1).artifacts = [] := by
  simp [VideoDownloadWorker.start, VideoDownloadWorker.startFresh,
        VideoDownloadWorker.newMediaRecorder, VideoDownloadWorker.stop,
        hmr, hbuf, hart, hplay, hcap]

theorem C3_never_ready_start_stop_witness :
    (VideoDownloadWorker.start (VideoDownloadWorker.mkDefault vNotReady)).2 = none ∧
    ((VideoDownloadWorker.start
        (VideoDownloadWorker.mkDefault vNotReady)).1).mediaRecorder
      = some { id := 0, state := RecState.inactive } ∧
    ((VideoDownloadWorker.start
        (VideoDownloadWorker.mkDefault vNotReady)).1).recordedChunks = [] ∧
    VideoDownloadWorker.stop
        (VideoDownloadWorker.start (VideoDownloadWorker.mkDefault vNotReady)).1
      = (VideoDownloadWorker.start (VideoDownloadWorker.mkDefault vNotReady)).1 ∧
    (VideoDownloadWorker.stop
        (VideoDownloadWorker.start
          (VideoDownloadWorker.mkDefault vNotReady)).1).artifacts = [] :=
  C3_never_ready_start_stop (VideoDownloadWorker.mkDefault vNotReady)
    rfl rfl rfl rfl rfl

/-- The Armed worker with its source now playing: the configuration under
which the `playing` event arrives. -/
def wArmedPlaying : Worker := { wArmed with video := vPlay }

/-- Claim C2 counterexample: an Armed worker holds recorder instance
id 0; after the source emits `playing`, the active recorder is a fresh
instance (id 1) — `start()` re-runs `#newMediaRecorder` because the
armed recorder's state is `"inactive"`, so encoding does not begin on
the existing encoder instance. -/
theorem C2_counterexample :
    wArmedPlaying.mediaRecorder = some { id := 0, state := RecState.inactive } ∧
    (VideoDownloadWorker.onPlayingEvent wArmedPlaying).1.mediaRecorder
      = some { id := 1, state := RecState.recording } := by
  constructor
  · rfl
  · rfl

/-- Claim C2 amended: in the Armed state (instantiated recorder, state
`"inactive"`), a `playing` event on a playing, capturable source
transitions the worker to Recording — but via a freshly constructed
encoder instance (id `w.nextId`, allocator bumped) that replaces the
existing armed instance, not by starting the existing one. -/
theorem C2_playing_in_armed_fresh_encoder (w : Worker) (mr : MediaRecorder)
    (hmr : w.mediaRecorder = some mr) (hst : mr.state = RecState.inactive)
    (hplay : w.video.playing = true) (hcap : w.video.capturable = true) :
    VideoDownloadWorker.onPlayingEvent w =
      ({ w with
          mediaRecorder := some { id := w.nextId, state := RecState.recording }
          nextId := w.nextId + 1 }, none) := by
  simp [VideoDownloadWorker.onPlayingEvent, VideoDownloadWorker.start,
        VideoDownloadWorker.startFresh, VideoDownloadWorker.newMediaRecorder,
        hmr, hst, hplay, hcap]

theorem C2_playing_in_armed_fresh_encoder_witness :
    VideoDownloadWorker.onPlayingEvent wArmedPlaying =
      ({ wArmedPlaying with
          mediaRecorder := some { id := 1, state := RecState.recording }
          nextId := 2 }, none) :=
  C2_playing_in_armed_fresh_encoder wArmedPlaying
    { id := 0, state := RecState.inactive } rfl rfl rfl rfl

/-- Claim C4: a worker constructed with filename `"out.mp4"` and
container format `"video/mp4"` does download under the supplied
filename, but tags the artifact `"video/webm"` — the constructor never
stores its `mimeType` parameter, so the supplied container format is
not the one used at materialization. -/
theorem C4_mimeType_parameter_ignored :
    (VideoDownloadWorker.downloadVideo
      (VideoDownloadWorker.stop
        (VideoDownloadWorker.onDataAvailable
          (VideoDownloadWorker.start
            (VideoDownloadWorker.mk vPlay "out.mp4" "video/mp4"
              { mimeType := "video/mp4" })).1 [7]))).artifacts
      = [{ data := [7], type := "video/webm", filename := "out.mp4" }] ∧
    ("video/webm" : String) ≠ "video/mp4" := by
  constructor
  · rfl
  · decide

/-- `stop()` on the orchestrator signals every worker in the registry:
the per-worker `stop()` never throws, so the loop always completes. -/
theorem stopAll_signals_every_worker (ws : List Worker) :
    VideoDownloader.stop ws = ws.map VideoDownloadWorker.stop := by
  induction ws with
  | nil => rfl
  | cons w ws ih => simp [VideoDownloader.stop, ih]

/-- Claim C1 counterexample: a registry of two workers, the first on a
non-capturable source, the second Idle on a capturable playing source.
`startAll` lets the first worker's exception escape (`some ()`) and
leaves the second worker completely untouched — even though invoking
`start()` on it directly would have installed an active recorder.  So a
failing worker does prevent subsequent workers from being signaled, and
the exception does escape the orchestrator. -/
theorem C1_counterexample :
    (VideoDownloader.start [wBad, wIdle]).2 = some () ∧
    (VideoDownloader.start [wBad, wIdle]).1 = [wBad, wIdle] ∧
    (VideoDownloadWorker.start wIdle).1.mediaRecorder
      = some { id := 0, state := RecState.recording } := by
  refine ⟨rfl, rfl, rfl⟩

/-- Claim C1 amended: the orchestrator's fan-out is sequential and
unprotected.  `stop()` does reach every worker, because the per-worker
`stop()` never throws.  `start()` reaches workers in registry order only
up to the first worker whose `start()` throws: the workers before it are
started, the throwing worker and every worker after it keep their states
untouched (the later ones are never signaled), and the exception escapes
the orchestrator to its caller. -/
theorem C1_fanout_aborts_at_first_throw (pre : List Worker) (w : Worker)
    (post : List Worker)
    (hpre : ∀ p ∈ pre, (VideoDownloadWorker.start p).2 = none)
    (hw : (VideoDownloadWorker.start w).2 = some ()) :
    VideoDownloader.start (pre ++ w :: post)
      = (pre.map (fun p => (VideoDownloadWorker.start p).1) ++ w :: post,
         some ()) ∧
    VideoDownloader.stop (pre ++ w :: post)
      = (pre ++ w :: post).map VideoDownloadWorker.stop := by
  refine ⟨?_, stopAll_signals_every_worker _⟩
  induction pre with
  | nil =>
      have h1 : VideoDownloadWorker.start w = (w, some ()) :=
        Prod.ext_iff.mpr ⟨start_error_unchanged w hw, hw⟩
      simp [VideoDownloader.start, h1]
  | cons p pre ih =>
      have hp : VideoDownloadWorker.start p
          = ((VideoDownloadWorker.start p).1, none) :=
        Prod.ext_iff.mpr ⟨rfl, hpre p (List.mem_cons_self p pre)⟩
      have ih2 := ih fun q hq => hpre q (List.mem_cons_of_mem p hq)
      simp only [List.cons_append, List.map_cons]
      rw [VideoDownloader.start, hp, ih2]

theorem C1_fanout_aborts_at_first_throw_witness :
    VideoDownloader.start [wIdle, wBad, wRecording]
      = ([(VideoDownloadWorker.start wIdle).1, wBad, wRecording], some ()) ∧
    VideoDownloader.stop [wIdle, wBad, wRecording]
      = [wIdle, wBad, wRecording].map VideoDownloadWorker.stop :=
  C1_fanout_aborts_at_first_throw [wIdle] wBad [wRecording]
    (by
      intro p hp
      rw [List.mem_singleton] at hp
      subst hp
      rfl)
    rfl
